import Mathlib

/-!
Shallow embedding of `src/backend/create_test_pdf.py`.

The script builds a list of flowables (`story`), starting with a title
paragraph and a spacer, then for each of four hard-coded provider
records appends eight flowables (a numbered heading, a spacer, four
normal paragraphs, a bold-labelled specialty paragraph, and a trailing
spacer), hands the story to `doc.build`, and prints three console lines.

Spacer heights are given in hundredths of an inch (the source writes
`0.3*inch`, `0.1*inch`, `0.2*inch`); paragraph styles are the three
styles the source actually uses.
-/

/-- A provider record: exactly the six keys of each dictionary in the
hard-coded `providers` list of the source. -/
structure Provider where
  name : String
  npi : String
  phone : String
  address : String
  city : String
  specialty : String
deriving DecidableEq, Repr

/-- The three paragraph styles the script uses: the custom title style,
`styles['Heading2']` and `styles['Normal']`. -/
inductive Style where
  | customTitle
  | heading2
  | normal
deriving DecidableEq, Repr

/-- A flowable appended to `story`: a styled paragraph or a spacer
(width in points, height in hundredths of an inch). -/
inductive Block where
  | paragraph (text : String) (style : Style)
  | spacer (width : Nat) (height : Nat)
deriving DecidableEq, Repr

/-- Line 11 of the source: the fixed output filename. -/
def pdf_file : String := "test_providers.pdf"

/-- Lines 30-63 of the source: the hard-coded provider list. -/
def providers : List Provider :=
  [ { name := "Dr. John Smith"
    , npi := "NPI: 1234567890"
    , phone := "Phone: (555) 123-4567"
    , address := "123 Main Street"
    , city := "New York, NY 10001"
    , specialty := "Cardiologist" }
  , { name := "Dr. Jane Doe"
    , npi := "NPI: 0987654321"
    , phone := "Phone: (555) 987-6543"
    , address := "456 Oak Avenue"
    , city := "Los Angeles, CA 90001"
    , specialty := "Physician" }
  , { name := "Dr. Michael Johnson"
    , npi := "NPI: 1111111111"
    , phone := "Phone: (555) 111-2222"
    , address := "789 Elm Street"
    , city := "Chicago, IL 60601"
    , specialty := "Dentist" }
  , { name := "Dr. Sarah Williams"
    , npi := "NPI: 2222222222"
    , phone := "Phone: (555) 222-3333"
    , address := "321 Pine Road"
    , city := "Houston, TX 77001"
    , specialty := "Surgeon" } ]

/-- Lines 26-27 of the source: the title paragraph and the 0.3-inch
spacer appended before the provider loop. -/
def titleBlocks : List Block :=
  [ Block.paragraph "Provider Directory" Style.customTitle
  , Block.spacer 1 30 ]

/-- Lines 67-74 of the source: the eight flowables appended for one
provider, where `i` is the 1-based index from `enumerate(providers, 1)`. -/
def providerBlocks (i : Nat) (p : Provider) : List Block :=
  [ Block.paragraph (toString i ++ ". " ++ p.name) Style.heading2
  , Block.spacer 1 10
  , Block.paragraph p.npi Style.normal
  , Block.paragraph p.phone Style.normal
  , Block.paragraph p.address Style.normal
  , Block.paragraph p.city Style.normal
  , Block.paragraph ("<b>Specialty:</b> " ++ p.specialty) Style.normal
  , Block.spacer 1 20 ]

/-- The in-memory state the provider loop operates on: the `story` list
being extended and the `providers` list being read. -/
structure LoopState where
  story : List Block
  providers : List Provider
deriving DecidableEq, Repr

/-- One iteration of the loop body (lines 67-74): eight appends to
`story`; the provider list is only read. -/
def loopBody (s : LoopState) (i : Nat) (p : Provider) : LoopState :=
  { s with story := s.story ++ providerBlocks i p }

/-- Lines 66-74 of the source: the `for i, provider in
enumerate(providers, 1)` loop over the state's provider list. -/
def renderLoop (s : LoopState) : LoopState :=
  List.foldl (fun st ip => loopBody st ip.1 ip.2) s (List.enumFrom 1 s.providers)

/-- The full story assembled for a given provider list: title and
spacer first, then the loop. -/
def buildStory (ps : List Provider) : List Block :=
  (renderLoop { story := titleBlocks, providers := ps }).story

/-- The environment a process run can observe. The script reads none of
`argv` or the environment variables; `buildOk` says whether the
`doc.build` call (the file write) succeeds. -/
structure Env where
  argv : List String
  envVars : List (String × String)
  buildOk : Bool
deriving DecidableEq, Repr

/-- The observable outcome of one run: the assembled story, the file
written (if any), the console lines printed, and whether the process
exited without error. -/
structure RunResult where
  story : List Block
  written : Option String
  printed : List String
  exitOk : Bool
deriving DecidableEq, Repr

/-- Lines 78-80 of the source: the three `print` calls executed after a
successful `doc.build`. -/
def statusLines : List String :=
  [ "✓ Test PDF created: " ++ pdf_file
  , "  Contains " ++ toString providers.length ++ " sample providers"
  , "  Upload this file to test the PDF OCR feature" ]

/-- Whole-script execution: assemble the story, call `doc.build`
(which writes `pdf_file` when it succeeds), then print the status
lines. When the build raises, the exception propagates uncaught: no
file is reported written, nothing is printed after the build call, and
the process exits with an error. -/
def run (env : Env) : RunResult :=
  let story := buildStory providers
  if env.buildOk then
    { story := story
    , written := some pdf_file
    , printed := statusLines
    , exitOk := true }
  else
    { story := story
    , written := none
    , printed := []
    , exitOk := false }

/-- Recognizer for the per-provider heading paragraphs: a provider
entry in the document starts with a `Heading2` paragraph. -/
def isHeading : Block → Bool
  | Block.paragraph _ Style.heading2 => true
  | _ => false

/-- The number of provider entries in an assembled story. -/
def countEntries (bs : List Block) : Nat :=
  (bs.filter isHeading).length

/-! Helper lemmas about the loop embedding. -/

/-- Folding the loop body over any enumerated list only appends to the
story and leaves the provider list of the state untouched. -/
theorem foldl_loopBody (l : List (Nat × Provider)) :
    ∀ st : LoopState,
      List.foldl (fun s ip => loopBody s ip.1 ip.2) st l =
        { story := st.story ++ (l.map fun ip => providerBlocks ip.1 ip.2).flatten
        , providers := st.providers } := by
  induction l with
  | nil => intro st; simp
  | cons x xs ih =>
      intro st
      rw [List.foldl_cons, ih]
      simp [loopBody, List.append_assoc]

/-- The loop produces the title blocks followed by the per-provider
blocks in list order. -/
theorem buildStory_eq (ps : List Provider) :
    buildStory ps =
      titleBlocks ++ ((List.enumFrom 1 ps).map fun ip => providerBlocks ip.1 ip.2).flatten := by
  simp [buildStory, renderLoop, foldl_loopBody]

/-- Each provider contributes exactly eight flowables. -/
theorem providerBlocks_length (i : Nat) (p : Provider) :
    (providerBlocks i p).length = 8 := rfl

/-- Length of the joined per-provider blocks, for any start index of
the enumeration. -/
theorem join_blocks_length (ps : List Provider) :
    ∀ n : Nat,
      (((List.enumFrom n ps).map fun ip => providerBlocks ip.1 ip.2).flatten).length =
        8 * ps.length := by
  induction ps with
  | nil => intro n; simp
  | cons p ps ih =>
      intro n
      simp only [List.enumFrom, List.map_cons, List.flatten_cons, List.length_append,
        List.length_cons, providerBlocks_length]
      rw [ih (n + 1)]
      ring

/-- The assembled story is the same in every environment and in both
build outcomes. -/
theorem run_story (env : Env) : (run env).story = buildStory providers := by
  unfold run
  by_cases h : env.buildOk <;> simp [h]

/-- The printed lines after a successful build. -/
theorem run_printed_ok (env : Env) (h : env.buildOk = true) :
    (run env).printed = statusLines := by
  simp [run, h]

/-- ASCII lowering of a character, as used to compare the source's
capitalized specialty labels with the spec's lowercase ones. -/
def lowerChar (c : Char) : Char :=
  if 65 ≤ c.toNat ∧ c.toNat ≤ 90 then Char.ofNat (c.toNat + 32) else c

/-- ASCII lowering of a label string. -/
def lowerLabel (s : String) : String :=
  String.mk (s.data.map lowerChar)

/-! The claims. -/

/-- C1: with a successful build the process exits without error, writes
`test_providers.pdf`, and the document content holds exactly four
provider entries, each populated with the literal field values of the
corresponding record of the hard-coded list. -/
theorem c1_pdf_four_literal_entries (env : Env) (h : env.buildOk = true) :
    (run env).exitOk = true ∧
    (run env).written = some "test_providers.pdf" ∧
    countEntries (run env).story = 4 ∧
    (run env).story =
      titleBlocks ++
      providerBlocks 1 ⟨"Dr. John Smith", "NPI: 1234567890", "Phone: (555) 123-4567",
        "123 Main Street", "New York, NY 10001", "Cardiologist"⟩ ++
      providerBlocks 2 ⟨"Dr. Jane Doe", "NPI: 0987654321", "Phone: (555) 987-6543",
        "456 Oak Avenue", "Los Angeles, CA 90001", "Physician"⟩ ++
      providerBlocks 3 ⟨"Dr. Michael Johnson", "NPI: 1111111111", "Phone: (555) 111-2222",
        "789 Elm Street", "Chicago, IL 60601", "Dentist"⟩ ++
      providerBlocks 4 ⟨"Dr. Sarah Williams", "NPI: 2222222222", "Phone: (555) 222-3333",
        "321 Pine Road", "Houston, TX 77001", "Surgeon"⟩ := by
  refine ⟨?_, ?_, ?_, ?_⟩
  · simp [run, h]
  · simp [run, h, pdf_file]
  · rw [run_story]
    decide
  · rw [run_story]
    decide

/-- C1 witness: the theorem instantiated at a concrete environment in
which the build succeeds. -/
theorem c1_pdf_four_literal_entries_witness :
    (run ⟨[], [], true⟩).exitOk = true ∧
    (run ⟨[], [], true⟩).written = some "test_providers.pdf" ∧
    countEntries (run ⟨[], [], true⟩).story = 4 ∧
    (run ⟨[], [], true⟩).story =
      titleBlocks ++
      providerBlocks 1 ⟨"Dr. John Smith", "NPI: 1234567890", "Phone: (555) 123-4567",
        "123 Main Street", "New York, NY 10001", "Cardiologist"⟩ ++
      providerBlocks 2 ⟨"Dr. Jane Doe", "NPI: 0987654321", "Phone: (555) 987-6543",
        "456 Oak Avenue", "Los Angeles, CA 90001", "Physician"⟩ ++
      providerBlocks 3 ⟨"Dr. Michael Johnson", "NPI: 1111111111", "Phone: (555) 111-2222",
        "789 Elm Street", "Chicago, IL 60601", "Dentist"⟩ ++
      providerBlocks 4 ⟨"Dr. Sarah Williams", "NPI: 2222222222", "Phone: (555) 222-3333",
        "321 Pine Road", "Houston, TX 77001", "Surgeon"⟩ :=
  c1_pdf_four_literal_entries ⟨[], [], true⟩ rfl

/-- C2 counterexample: after a successful build the script prints three
console lines, not two. -/
theorem c2_two_lines_cex : ¬ ((run ⟨[], [], true⟩).printed.length = 2) := by
  decide

/-- C2 (amended): after a successful build the console output consists
of exactly three human-readable lines: one confirming file creation,
one reporting the record count, and one instructing the user to upload
the file. -/
theorem c2_three_status_lines (env : Env) (h : env.buildOk = true) :
    (run env).printed =
      [ "✓ Test PDF created: test_providers.pdf"
      , "  Contains 4 sample providers"
      , "  Upload this file to test the PDF OCR feature" ] := by
  rw [run_printed_ok env h]
  decide

/-- C2 witness: the amended theorem at a concrete successful build. -/
theorem c2_three_status_lines_witness :
    (run ⟨[], [], true⟩).printed =
      [ "✓ Test PDF created: test_providers.pdf"
      , "  Contains 4 sample providers"
      , "  Upload this file to test the PDF OCR feature" ] :=
  c2_three_status_lines ⟨[], [], true⟩ rfl

/-- C3: the output filename is the fixed relative path
`test_providers.pdf`; the run result is independent of command-line
arguments and environment variables; and a successful build writes
exactly that file. -/
theorem c3_fixed_output :
    pdf_file = "test_providers.pdf" ∧
    pdf_file.data.head? ≠ some '/' ∧
    (∀ (a : List String) (e : List (String × String)) (b : Bool),
      run ⟨a, e, b⟩ = run ⟨[], [], b⟩) ∧
    (∀ env : Env, env.buildOk = true → (run env).written = some pdf_file) := by
  refine ⟨rfl, by decide, ?_, ?_⟩
  · intro a e b
    cases b <;> rfl
  · intro env h
    simp [run, h]

/-- C3 witness: a run with nonempty arguments and environment still
writes the fixed file. -/
theorem c3_fixed_output_witness :
    (run ⟨["--verbose"], [("HOME", "/root")], true⟩).written = some pdf_file :=
  c3_fixed_output.2.2.2 ⟨["--verbose"], [("HOME", "/root")], true⟩ rfl

/-- C4: every record of the hard-coded list consists of exactly the six
Provider fields, and its specialty label is one of cardiologist,
physician, dentist, surgeon (capitalized in the source). -/
theorem c4_provider_fields :
    ∀ p ∈ providers,
      p = Provider.mk p.name p.npi p.phone p.address p.city p.specialty ∧
      p.specialty ∈ ["Cardiologist", "Physician", "Dentist", "Surgeon"] ∧
      lowerLabel p.specialty ∈ ["cardiologist", "physician", "dentist", "surgeon"] := by
  decide

/-- C4 witness: the first record's specialty label is in the enumerated
set. -/
theorem c4_provider_fields_witness :
    (Provider.mk "Dr. John Smith" "NPI: 1234567890" "Phone: (555) 123-4567"
        "123 Main Street" "New York, NY 10001" "Cardiologist").specialty ∈
      ["Cardiologist", "Physician", "Dentist", "Surgeon"] :=
  (c4_provider_fields
    (Provider.mk "Dr. John Smith" "NPI: 1234567890" "Phone: (555) 123-4567"
      "123 Main Street" "New York, NY 10001" "Cardiologist") (by decide)).2.1

/-- C5: the rendering loop reads the provider list but never changes
it: for any loop state the provider list is untouched, and in
particular the list after document generation equals the literal list
as initially constructed. -/
theorem c5_providers_immutable :
    (∀ s : LoopState, (renderLoop s).providers = s.providers) ∧
    (renderLoop { story := titleBlocks, providers := providers }).providers = providers := by
  constructor
  · intro s
    simp [renderLoop, foldl_loopBody]
  · rfl

/-- C6: there is no error handling: when the build call fails, the
exception propagates, the process exits with an error, no file is
written, and neither status line after the build is printed. -/
theorem c6_build_failure_propagates (env : Env) (h : env.buildOk = false) :
    (run env).printed = [] ∧ (run env).written = none ∧ (run env).exitOk = false := by
  simp [run, h]

/-- C6 witness: the theorem at a concrete environment whose build
fails. -/
theorem c6_build_failure_propagates_witness :
    (run ⟨[], [], false⟩).printed = [] ∧
    (run ⟨[], [], false⟩).written = none ∧
    (run ⟨[], [], false⟩).exitOk = false :=
  c6_build_failure_propagates ⟨[], [], false⟩ rfl

/-- C7: execution is a straight line: for any provider list the story
is the title blocks followed by each provider's blocks exactly once,
in list order; in particular the heading of the i-th provider of the
hard-coded list sits at story position 2 + 8 * i and carries the
1-based index i + 1. -/
theorem c7_sequential_order :
    (∀ ps : List Provider,
      buildStory ps =
        titleBlocks ++
          ((List.enumFrom 1 ps).map fun ip => providerBlocks ip.1 ip.2).flatten) ∧
    (∀ i : Nat, i < providers.length →
      (buildStory providers)[2 + 8 * i]? =
        (providers[i]?).map fun p =>
          Block.paragraph (toString (i + 1) ++ ". " ++ p.name) Style.heading2) := by
  refine ⟨buildStory_eq, ?_⟩
  decide

/-- C7 witness: the first provider's heading is the third story
element. -/
theorem c7_sequential_order_witness :
    (buildStory providers)[2 + 8 * 0]? =
      (providers[0]?).map fun p =>
        Block.paragraph (toString (0 + 1) ++ ". " ++ p.name) Style.heading2 :=
  c7_sequential_order.2 0 (by decide)

/-- C8: determinism: any two runs assemble the same story, and any two
runs whose builds succeed print the same console lines. -/
theorem c8_deterministic (e₁ e₂ : Env) :
    (run e₁).story = (run e₂).story ∧
    (e₁.buildOk = true → e₂.buildOk = true → (run e₁).printed = (run e₂).printed) := by
  constructor
  · rw [run_story, run_story]
  · intro h₁ h₂
    rw [run_printed_ok e₁ h₁, run_printed_ok e₂ h₂]

/-- C8 witness: two concrete runs with different arguments and
environment variables agree on story and console output. -/
theorem c8_deterministic_witness :
    (run ⟨["x"], [], true⟩).story = (run ⟨[], [("PATH", "/usr/bin")], true⟩).story ∧
    (run ⟨["x"], [], true⟩).printed = (run ⟨[], [("PATH", "/usr/bin")], true⟩).printed :=
  ⟨(c8_deterministic ⟨["x"], [], true⟩ ⟨[], [("PATH", "/usr/bin")], true⟩).1,
   (c8_deterministic ⟨["x"], [], true⟩ ⟨[], [("PATH", "/usr/bin")], true⟩).2 rfl rfl⟩

/-- C9: the record count printed on the console equals the number of
provider entries placed into the document, which is the length of the
providers list, namely 4. -/
theorem c9_count_matches (env : Env) (h : env.buildOk = true) :
    countEntries (run env).story = providers.length ∧
    providers.length = 4 ∧
    (run env).printed[1]? =
      some ("  Contains " ++ toString (countEntries (run env).story) ++
        " sample providers") := by
  rw [run_story env, run_printed_ok env h]
  refine ⟨by decide, rfl, by decide⟩

/-- C9 witness: the theorem at a concrete successful run. -/
theorem c9_count_matches_witness :
    countEntries (run ⟨[], [], true⟩).story = providers.length ∧
    providers.length = 4 ∧
    (run ⟨[], [], true⟩).printed[1]? =
      some ("  Contains " ++ toString (countEntries (run ⟨[], [], true⟩).story) ++
        " sample providers") :=
  c9_count_matches ⟨[], [], true⟩ rfl

/-- C10 counterexample: the story does not have 2 + 7 * n elements for
the hard-coded list (it has 34 = 2 + 8 * 4, not 30). -/
theorem c10_story_shape_cex :
    ¬ ((buildStory providers).length = 2 + 7 * providers.length) := by
  decide

/-- C10 (amended): the story has 2 leading elements followed by exactly
8 elements per provider — heading, spacer, four normal paragraphs, the
specialty paragraph 7th and a trailing spacer 8th — for a total of
2 + 8 * n elements (34 for the hard-coded list of 4). -/
theorem c10_story_shape :
    (∀ ps : List Provider, (buildStory ps).length = 2 + 8 * ps.length) ∧
    (buildStory providers).length = 34 ∧
    (∀ (i : Nat) (p : Provider),
      (providerBlocks i p).length = 8 ∧
      (providerBlocks i p)[0]? =
        some (Block.paragraph (toString i ++ ". " ++ p.name) Style.heading2) ∧
      (providerBlocks i p)[6]? =
        some (Block.paragraph ("<b>Specialty:</b> " ++ p.specialty) Style.normal) ∧
      (providerBlocks i p)[7]? = some (Block.spacer 1 20)) := by
  refine ⟨?_, by decide, ?_⟩
  · intro ps
    rw [buildStory_eq, List.length_append, join_blocks_length ps 1]
    rfl
  · intro i p
    exact ⟨rfl, rfl, rfl, rfl⟩
